import Mathlib

/-!
Verification of the sunbeam validation plugin core
(file src/sunbeam-python/sunbeam/plugins/validation/plugin.py):
the cron schedule validator and the tempest action dispatcher.

The plugin code is translated directly from the Python source.  The external
croniter library (cron parsing and next-firing computation) is not part of the
repository, so it is modelled from the specification of standard 5-field cron
grammar, anchored at the fixed reference instant 2004-03-05T00:00:00.
Times are represented as minutes since 2004-01-01T00:00:00.
-/

/-- Python str.isspace characters relevant to str.split and str.strip. -/
def isPyWhitespace (c : Char) : Bool :=
  c == ' ' || c == '\t' || c == '\n' || c == '\r' || c == '\x0b' || c == '\x0c'

/-- Helper for pysplit: accumulates the current word (reversed) while scanning. -/
def pysplitAux : List Char → List Char → List String
  | [], cur => if cur = [] then [] else [String.mk cur.reverse]
  | c :: cs, cur =>
    if isPyWhitespace c then
      if cur = [] then pysplitAux cs []
      else String.mk cur.reverse :: pysplitAux cs []
    else pysplitAux cs (c :: cur)

/-- Python str.split with no argument: split on runs of whitespace, no empties. -/
def pysplit (s : String) : List String := pysplitAux s.data []

/-- Python str.strip with no argument: drop leading and trailing whitespace. -/
def pystrip (s : String) : String :=
  String.mk (((s.data.dropWhile isPyWhitespace).reverse.dropWhile isPyWhitespace).reverse)

/-- Whether the first list is a leading segment of the second (Boolean). -/
def listIsPre : List Char → List Char → Bool
  | [], _ => true
  | _ :: _, [] => false
  | a :: as, b :: bs => a == b && listIsPre as bs

/-- Helper for containsSubstr: scan every suffix of the haystack. -/
def substrAux : List Char → List Char → Bool
  | [], pat => pat.isEmpty
  | c :: rest, pat => listIsPre pat (c :: rest) || substrAux rest pat

/-- Python substring membership test: pat in s. -/
def containsSubstr (s pat : String) : Bool := substrAux s.data pat.data

/-- Python s.split(sep, 1): split a character list at the first occurrence of sep. -/
def splitFirstChar (sep : Char) : List Char → Option (List Char × List Char)
  | [] => none
  | c :: cs =>
    if c = sep then some ([], cs)
    else
      match splitFirstChar sep cs with
      | none => none
      | some (a, b) => some (c :: a, b)

/-- Parse a nonempty all-digit character list as a decimal number. -/
def parseNumAux : List Char → Nat → Option Nat
  | [], acc => some acc
  | c :: r, acc => if c.isDigit then parseNumAux r (acc * 10 + (c.toNat - 48)) else none

/-- Parse a decimal number; the empty list is rejected. -/
def parseNum : List Char → Option Nat
  | [] => none
  | c :: r => parseNumAux (c :: r) 0

/-! ## Cron expression model (modelled from the spec) -/

/-- Modelled from the spec: croniter weekday names, Sunday = 0. -/
def DOW_NAMES : List (String × Nat) :=
  [("sun", 0), ("mon", 1), ("tue", 2), ("wed", 3), ("thu", 4), ("fri", 5), ("sat", 6)]

/-- Modelled from the spec: croniter month names, January = 1. -/
def MON_NAMES : List (String × Nat) :=
  [("jan", 1), ("feb", 2), ("mar", 3), ("apr", 4), ("may", 5), ("jun", 6),
   ("jul", 7), ("aug", 8), ("sep", 9), ("oct", 10), ("nov", 11), ("dec", 12)]

/-- Lower bound of each cron field (0 minute, 1 hour, 2 day, 3 month, 4 weekday). -/
def FIELD_LO : Nat → Nat
  | 2 => 1
  | 3 => 1
  | _ => 0

/-- Upper bound of each cron field; weekday accepts 7 as a synonym of Sunday. -/
def FIELD_HI : Nat → Nat
  | 0 => 59
  | 1 => 23
  | 2 => 31
  | 3 => 12
  | _ => 7

/-- Weekday 7 is normalized to 0; other fields are unchanged. -/
def normDow (field : Nat) (v : Nat) : Nat := if field = 4 then v % 7 else v

/-- The inclusive integer range from lo to hi. -/
def rangeList (lo hi : Nat) : List Nat := (List.range (hi + 1 - lo)).map (fun k => lo + k)

/-- The range from a to b keeping only values reached by steps of st from a. -/
def steppedRange (a b st : Nat) : List Nat :=
  (rangeList a b).filter (fun v => (v - a) % st == 0)

/-- Modelled from the spec: croniter error message for a bad field value. -/
def notAcceptable (s : String) : String := "[" ++ s ++ "] is not acceptable"

/-- Parse one field value: a decimal number, or a month or weekday name. -/
def parseVal (field : Nat) (tok : List Char) : Option Nat :=
  match parseNum tok with
  | some n => some n
  | none =>
    let lower : String := String.mk (tok.map Char.toLower)
    if field = 3 then (MON_NAMES.find? (fun p => p.1 == lower)).map (fun p => p.2)
    else if field = 4 then (DOW_NAMES.find? (fun p => p.1 == lower)).map (fun p => p.2)
    else none

/-- Resolve the base of a field part to an inclusive range of values.
With a step, a single value a means the range a to the field maximum. -/
def baseRange (field : Nat) (tok : List Char) (withStep : Bool) : Option (Nat × Nat) :=
  let lo := FIELD_LO field
  let hi := FIELD_HI field
  if tok = ['*'] then some (lo, hi)
  else
    match splitFirstChar '-' tok with
    | some (aTok, bTok) =>
      match parseVal field aTok, parseVal field bTok with
      | some a, some b =>
        if lo ≤ a ∧ a ≤ hi ∧ lo ≤ b ∧ b ≤ hi ∧ a ≤ b then some (a, b) else none
      | _, _ => none
    | none =>
      match parseVal field tok with
      | some a =>
        if lo ≤ a ∧ a ≤ hi then (if withStep then some (a, hi) else some (a, a)) else none
      | none => none

/-- Modelled from the spec: parse one comma-separated part of a cron field. -/
def parsePart (s : String) (field : Nat) (tok : List Char) : Except String (List Nat) :=
  match splitFirstChar '/' tok with
  | some (basePart, stepPart) =>
    match parseNum stepPart, baseRange field basePart true with
    | some (st + 1), some (a, b) => .ok ((steppedRange a b (st + 1)).map (normDow field))
    | _, _ => .error (notAcceptable s)
  | none =>
    match baseRange field tok false with
    | some (a, b) => .ok ((rangeList a b).map (normDow field))
    | none => .error (notAcceptable s)

/-- Split a character list at every comma, like Python str.split on a comma. -/
def splitCommaAux : List Char → List Char → List (List Char)
  | [], cur => [cur.reverse]
  | c :: cs, cur =>
    if c = ',' then cur.reverse :: splitCommaAux cs [] else splitCommaAux cs (c :: cur)

/-- Modelled from the spec: parse one whole cron field (comma list of parts).
The Boolean records whether the field literally is a star, which drives the
standard day-of-month or day-of-week matching rule. -/
def parseField (s : String) (field : Nat) (tok : String) : Except String (List Nat × Bool) :=
  match (splitCommaAux tok.data []).mapM (fun p => parsePart s field p) with
  | .error e => .error e
  | .ok lists => .ok (lists.flatten, tok == "*")

/-- A parsed 5-field cron expression: allowed values of each field, and
whether the day-of-month and day-of-week fields are unrestricted stars. -/
structure CronExpr where
  minute : List Nat
  hour : List Nat
  dom : List Nat
  month : List Nat
  dow : List Nat
  domStar : Bool
  dowStar : Bool
deriving DecidableEq, Repr

/-- Modelled from the spec: croniter construction on a 5-field expression.
Any other field count is the wrong-column-count parse error. -/
def parseCron (s : String) : Except String CronExpr :=
  match pysplit s with
  | [f1, f2, f3, f4, f5] =>
    match parseField s 0 f1, parseField s 1 f2, parseField s 2 f3,
          parseField s 3 f4, parseField s 4 f5 with
    | .ok mi, .ok ho, .ok dm, .ok mo, .ok dw =>
      .ok { minute := mi.1, hour := ho.1, dom := dm.1, month := mo.1, dow := dw.1,
            domStar := dm.2, dowStar := dw.2 }
    | .error e, _, _, _, _ => .error e
    | _, .error e, _, _, _ => .error e
    | _, _, .error e, _, _ => .error e
    | _, _, _, .error e, _ => .error e
    | _, _, _, _, .error e => .error e
  | _ => .error "Exactly 5 or 6 columns has to be specified for iterator expression."

/-! ## Calendar (proleptic Gregorian, anchored at 2004-01-01, a Thursday) -/

/-- Gregorian leap year test. -/
def isLeap (y : Nat) : Bool := (y % 4 == 0 && y % 100 != 0) || y % 400 == 0

/-- Number of days in a year. -/
def daysInYear (y : Nat) : Nat := if isLeap y then 366 else 365

/-- Number of days in a month of a year. -/
def daysInMonth (y m : Nat) : Nat :=
  if m == 2 then (if isLeap y then 29 else 28)
  else if m == 4 || m == 6 || m == 9 || m == 11 then 30
  else 31

/-- Fueled scan finding the year containing a day offset from 2004-01-01. -/
def yearFromDays : Nat → Nat → Nat → Nat × Nat
  | 0, y, d => (y, d)
  | fuel + 1, y, d =>
    if d < daysInYear y then (y, d) else yearFromDays fuel (y + 1) (d - daysInYear y)

/-- Fueled scan finding the month containing a day offset from January 1. -/
def monthFromDays : Nat → Nat → Nat → Nat → Nat × Nat
  | 0, _, m, d => (m, d)
  | fuel + 1, y, m, d =>
    if d < daysInMonth y m then (m, d) else monthFromDays fuel y (m + 1) (d - daysInMonth y m)

/-- Civil date (year, month, day) of a day count since 2004-01-01. -/
def civilOfDays (d : Nat) : Nat × Nat × Nat :=
  let yd := yearFromDays 400 2004 d
  let md := monthFromDays 12 yd.1 1 yd.2
  (yd.1, md.1, md.2 + 1)

/-- Whether a cron expression fires at a given minute since 2004-01-01T00:00.
Day-of-month and day-of-week follow the standard rule: both stars always
match, one star defers to the other field, both restricted match either. -/
def cronMatches (c : CronExpr) (t : Nat) : Bool :=
  let minute := t % 60
  let hour := (t / 60) % 24
  let d := t / 1440
  let ymd := civilOfDays d
  let dw := (4 + d) % 7
  c.minute.contains minute && c.hour.contains hour && c.month.contains ymd.2.1 &&
    (if c.domStar && c.dowStar then true
     else if c.domStar then c.dow.contains dw
     else if c.dowStar then c.dom.contains ymd.2.2
     else c.dom.contains ymd.2.2 || c.dow.contains dw)

/-- Fueled linear search for the first firing minute at or after t. -/
def findNext (c : CronExpr) : Nat → Nat → Option Nat
  | 0, _ => none
  | fuel + 1, t => if cronMatches c t then some t else findNext c fuel (t + 1)

/-- Search horizon, about two years of minutes, matching croniter giving up
after max_years_between_matches of one year. -/
def SEARCH_LIMIT : Nat := 1060000

/-- Modelled from the spec: croniter get_next, the first firing strictly
after the current instant, or none when the horizon is exhausted. -/
def getNext (c : CronExpr) (cur : Nat) : Option Nat := findNext c SEARCH_LIMIT (cur + 1)

/-- The fixed reference instant 2004-03-05T00:00:00 as minutes since
2004-01-01T00:00:00 (64 days of 1440 minutes). -/
def BASE_MINUTE : Nat := 92160

/-! ## The plugin code under verification -/

/-- Python exceptions that the plugin code can raise. -/
inductive PyError where
  | clickException (msg : String)
  | unboundLocalError (varName : String)
  | croniterBadDate
deriving DecidableEq, Repr

/-- Constant MINIMAL_PERIOD from the source: 15 minutes in seconds. -/
def MINIMAL_PERIOD : Nat := 15 * 60

/-- Translation of validated_schedule from the source.  Returns the schedule
on success and the raised exception on failure.  The croniter constructor is
parseCron and each get_next is getNext; a get_next finding no firing raises
outside the try block, modelled as the croniterBadDate error. -/
def validated_schedule (schedule : String) : Except PyError String :=
  if schedule = "" then .ok ""
  else if (pysplit schedule).length = 6 then
    .error (.clickException
      "This cron does not support seconds in schedule (6 fields). Exactly 5 columns must be specified for iterator expression.")
  else
    match parseCron schedule with
    | .error msg =>
      .error (.clickException
        (if containsSubstr msg "Exactly 5 or 6 columns" = true then
          "Exactly 5 columns must be specified for iterator expression."
        else msg))
    | .ok cron =>
      match getNext cron BASE_MINUTE with
      | none => .error .croniterBadDate
      | some t1 =>
        match getNext cron t1 with
        | none => .error .croniterBadDate
        | some t2 =>
          if (t2 - t1) * 60 ≤ MINIMAL_PERIOD then
            .error (.clickException
              "Cannot schedule periodic check to run faster than every 15 minutes.")
          else .ok schedule

/-- Translation of the Config dataclass from the source. -/
structure Config where
  schedule : Option String := none
deriving DecidableEq, Repr

/-- Python dict key-membership test on the ordered association list. -/
def hasKey (acc : List (String × String)) (k : String) : Bool :=
  acc.any (fun p => p.1 == k)

/-- Loop of parse_config_args: the accumulator is the dict as an ordered
association list. -/
def parseConfigGo : List String → List (String × String) → Except PyError (List (String × String))
  | [], acc => .ok acc
  | a :: rest, acc =>
    match splitFirstChar '=' a.data with
    | none => .error (.clickException "syntax: key=value")
    | some (k, v) =>
      if hasKey acc (String.mk k) then
        .error (.clickException
          (String.mk k ++ " parameter seen multiple times.  Only provide it once."))
      else parseConfigGo rest (acc ++ [(String.mk k, String.mk v)])

/-- Translation of parse_config_args from the source. -/
def parse_config_args (args : List String) : Except PyError (List (String × String)) :=
  parseConfigGo args []

/-- Loop of validated_config_args over the dict items. -/
def vcaGo : List (String × String) → Config → Except PyError Config
  | [], c => .ok c
  | (k, v) :: rest, c =>
    if k = "schedule" then
      match validated_schedule v with
      | .error e => .error e
      | .ok s => vcaGo rest { c with schedule := some s }
    else .error (.clickException (k ++ " is not a supported config option"))

/-- Translation of validated_config_args from the source. -/
def validated_config_args (args : List (String × String)) : Except PyError Config :=
  vcaGo args {}

/-- Modelled from the spec: the model identifier OPENSTACK_MODEL imported
from the openstack commands module, which is not under src. -/
def OPENSTACK_MODEL : String := "openstack"

deriving instance DecidableEq for Except

/-- One remote call made through the juju helper. -/
inductive JujuCall where
  | getLeaderUnit (app model : String)
  | runAction (unit model actionName : String) (params : List (String × String))
  | setApplicationConfig (model app : String) (config : List (String × String))
deriving DecidableEq, Repr

/-- Whether a call is an invocation of the remote action endpoint. -/
def isActionInvocation : JujuCall → Bool
  | .runAction _ _ _ _ => true
  | _ => false

/-- Outcome of one plugin operation: the returned value or raised exception,
the remote calls made in order, and the console output printed. -/
structure OpResult where
  outcome : Except PyError Unit
  calls : List JujuCall
  printed : List String
deriving DecidableEq, Repr

/-- A juju action result as the plugin reads it: return-code and stdout
(the stderr key is never read by the plugin). -/
structure ActionResult where
  returnCode : Nat
  stdout : String
  stderr : String
deriving DecidableEq, Repr

/-- Environment of one run_action call: the leader unit the cluster reports
for tempest, and the result the remote action returns when invoked. -/
structure RunEnv where
  leaderUnit : Option String
  actionResult : ActionResult
deriving DecidableEq, Repr

/-- Translation of ValidationPlugin._run_action from the source: resolve the
tempest leader, fail if absent, invoke the action, fail on return-code above
one, and print stripped stdout when requested. -/
def run_action (env : RunEnv) (action_name : String) (action_params : List (String × String))
    (progress_message : String) (print_stdout : Bool) : OpResult :=
  let _ := progress_message
  match env.leaderUnit with
  | none =>
    { outcome := .error (.clickException ("Unable to get " ++ "tempest" ++ " leader")),
      calls := [.getLeaderUnit "tempest" OPENSTACK_MODEL],
      printed := [] }
  | some unit =>
    let calls := [JujuCall.getLeaderUnit "tempest" OPENSTACK_MODEL,
                  JujuCall.runAction unit OPENSTACK_MODEL action_name action_params]
    if env.actionResult.returnCode > 1 then
      { outcome := .error (.clickException ("Unable to run action: " ++ action_name)),
        calls := calls, printed := [] }
    else if print_stdout then
      { outcome := .ok (), calls := calls, printed := [pystrip env.actionResult.stdout] }
    else
      { outcome := .ok (), calls := calls, printed := [] }

/-- Translation of ValidationPlugin._configure_preflight_check. -/
def configure_preflight_check (enabledPlugins : List String) : Bool :=
  if "observability" ∈ enabledPlugins then true else false

/-- Environment of one configure_validation call. -/
structure ConfigureEnv where
  enabledPlugins : List String
  leaderUnit : Option String
deriving DecidableEq, Repr

/-- Console help text printed by configure_validation without arguments. -/
def configHelpText : String :=
  "Config options available: \n\nschedule: set a cron schedule for running periodic tests.  Empty disables.\n\nRun with key=value args to set configuration values.\nFor example: sunbeam configure validation schedule=\"*/30 * * * *\""

/-- Translation of ValidationPlugin.configure_validation from the source.
On the successful push path the source executes console.print(message) where
the local variable message was only assigned in the missing-leader branch, so
Python raises UnboundLocalError there after the config push. -/
def configure_validation (env : ConfigureEnv) (options : List String) : OpResult :=
  if configure_preflight_check env.enabledPlugins then
    if options.isEmpty then
      { outcome := .ok (), calls := [], printed := [configHelpText] }
    else
      match parse_config_args options with
      | .error e => { outcome := .error e, calls := [], printed := [] }
      | .ok cfgArgs =>
        match validated_config_args cfgArgs with
        | .error e => { outcome := .error e, calls := [], printed := [] }
        | .ok cfg =>
          match cfg.schedule with
          | none => { outcome := .ok (), calls := [], printed := [] }
          | some sched =>
            match env.leaderUnit with
            | none =>
              { outcome := .error (.clickException ("Unable to get " ++ "tempest" ++ " leader")),
                calls := [.getLeaderUnit "tempest" OPENSTACK_MODEL],
                printed := [] }
            | some _ =>
              { outcome := .error (.unboundLocalError "message"),
                calls := [.getLeaderUnit "tempest" OPENSTACK_MODEL,
                          .setApplicationConfig OPENSTACK_MODEL "tempest"
                            [("schedule", sched)]],
                printed := [] }
  else
    { outcome := .error (.clickException
        "\x27observability\x27 plugin is required for configuring validation plugin."),
      calls := [], printed := [] }

/-- Trailing-only whitespace trim, as the specification describes the output
handling; for comparison with the source, which strips both ends. -/
def pyrstrip (s : String) : String :=
  String.mk ((s.data.reverse.dropWhile isPyWhitespace).reverse)

/-! ## Helper lemmas -/

theorem listIsPre_refl (l : List Char) : listIsPre l l = true := by
  induction l with
  | nil => rfl
  | cons c cs ih => simp [listIsPre, ih]

theorem substrAux_append_self (p n : List Char) : substrAux (p ++ n) n = true := by
  induction p with
  | nil =>
    cases n with
    | nil => rfl
    | cons c cs => simp [substrAux, listIsPre_refl]
  | cons c cs ih => simp [substrAux, ih]

theorem containsSubstr_append_self (p n : String) : containsSubstr (p ++ n) n = true := by
  unfold containsSubstr
  rw [String.data_append p n]
  exact substrAux_append_self p.data n.data

theorem parseCron_len (s : String) (c : CronExpr) (h : parseCron s = .ok c) :
    (pysplit s).length = 5 := by
  unfold parseCron at h
  rcases hl : pysplit s with _ | ⟨f1, _ | ⟨f2, _ | ⟨f3, _ | ⟨f4, _ | ⟨f5, _ | ⟨f6, rest⟩⟩⟩⟩⟩⟩ <;>
    rw [hl] at h <;> first | exact Except.noConfusion h | rfl

theorem parseCron_ok_ne (s : String) (c : CronExpr) (h : parseCron s = .ok c) : ¬ (s = "") := by
  intro he
  have hl := parseCron_len s c h
  rw [he] at hl
  exact absurd hl (by decide)

theorem pysplitAux_ws (l : List Char) (h : ∀ c ∈ l, isPyWhitespace c = true) :
    pysplitAux l [] = [] := by
  induction l with
  | nil => rfl
  | cons c cs ih =>
    have hc := h c (List.mem_cons_self c cs)
    simp [pysplitAux, hc, ih (fun x hx => h x (List.mem_cons_of_mem c hx))]

theorem splitFirstChar_schedule (v : String) :
    splitFirstChar '=' ("schedule=" ++ v).data = some ("schedule".data, v.data) := by
  rw [String.data_append]
  rfl

theorem parseConfigGo_sub (args : List String) :
    ∀ acc d p, parseConfigGo args acc = .ok d → p ∈ acc → p ∈ d := by
  induction args with
  | nil =>
    intro acc d p h hp
    simp only [parseConfigGo] at h
    injection h with h2
    rw [← h2]
    exact hp
  | cons a rest ih =>
    intro acc d p h hp
    unfold parseConfigGo at h
    split at h
    · exact Except.noConfusion h
    · split at h
      · exact Except.noConfusion h
      · exact ih _ d p h (List.mem_append_left _ hp)

theorem parseConfigGo_mem (args : List String) :
    ∀ acc d v, parseConfigGo args acc = .ok d → ("schedule=" ++ v) ∈ args →
      ("schedule", v) ∈ d := by
  induction args with
  | nil => intro acc d v h hm; cases hm
  | cons a rest ih =>
    intro acc d v h hm
    unfold parseConfigGo at h
    rcases List.mem_cons.mp hm with heq | htail
    · split at h
      · exact Except.noConfusion h
      · rename_i k w heqs
        rw [← heq, splitFirstChar_schedule v] at heqs
        have hkw : ("schedule".data, v.data) = (k, w) := Option.some.inj heqs
        have hk1 : k = "schedule".data := (congrArg Prod.fst hkw).symm
        have hk2 : w = v.data := (congrArg Prod.snd hkw).symm
        subst hk1
        subst hk2
        split at h
        · exact Except.noConfusion h
        · exact parseConfigGo_sub rest _ d _ h
            (List.mem_append_right acc (List.mem_singleton.mpr rfl))
    · split at h
      · exact Except.noConfusion h
      · split at h
        · exact Except.noConfusion h
        · exact ih _ d v h htail

theorem vcaGo_err (d : List (String × String)) :
    ∀ (v : String) (cfg : Config), ("schedule", v) ∈ d →
      (validated_schedule v).isOk = false → (vcaGo d cfg).isOk = false := by
  induction d with
  | nil => intro v cfg hm _; cases hm
  | cons p rest ih =>
    intro v cfg hm hbad
    obtain ⟨k, w⟩ := p
    unfold vcaGo
    by_cases hk : k = "schedule"
    · subst hk
      rw [if_pos rfl]
      rcases hw : validated_schedule w with e | s
      · rfl
      · rcases List.mem_cons.mp hm with heq | htail
        · have hv : v = w := congrArg Prod.snd heq
          rw [hv, hw] at hbad
          simp [Except.isOk, Except.toBool] at hbad
        · exact ih v _ htail hbad
    · rw [if_neg hk]
      rfl

theorem pystrip_decomp (s : String) :
    ∃ a b, s.data = a ++ (pystrip s).data ++ b ∧
      (∀ c ∈ a, isPyWhitespace c = true) ∧ (∀ c ∈ b, isPyWhitespace c = true) := by
  refine ⟨s.data.takeWhile isPyWhitespace,
    ((s.data.dropWhile isPyWhitespace).reverse.takeWhile isPyWhitespace).reverse, ?_, ?_, ?_⟩
  · have hm : s.data.dropWhile isPyWhitespace =
        (pystrip s).data ++
          ((s.data.dropWhile isPyWhitespace).reverse.takeWhile isPyWhitespace).reverse := by
      calc s.data.dropWhile isPyWhitespace
          = (s.data.dropWhile isPyWhitespace).reverse.reverse := by
            rw [List.reverse_reverse]
        _ = ((s.data.dropWhile isPyWhitespace).reverse.takeWhile isPyWhitespace ++
              (s.data.dropWhile isPyWhitespace).reverse.dropWhile isPyWhitespace).reverse := by
            rw [List.takeWhile_append_dropWhile]
        _ = (pystrip s).data ++
              ((s.data.dropWhile isPyWhitespace).reverse.takeWhile isPyWhitespace).reverse := by
            rw [List.reverse_append]
            rfl
    calc s.data
        = s.data.takeWhile isPyWhitespace ++ s.data.dropWhile isPyWhitespace := by
          rw [List.takeWhile_append_dropWhile]
      _ = s.data.takeWhile isPyWhitespace ++ ((pystrip s).data ++
            ((s.data.dropWhile isPyWhitespace).reverse.takeWhile isPyWhitespace).reverse) := by
          rw [← hm]
      _ = s.data.takeWhile isPyWhitespace ++ (pystrip s).data ++
            ((s.data.dropWhile isPyWhitespace).reverse.takeWhile isPyWhitespace).reverse := by
          rw [List.append_assoc]
  · intro c hc
    exact List.mem_takeWhile_imp hc
  · intro c hc
    rw [List.mem_reverse] at hc
    exact List.mem_takeWhile_imp hc

/-! ## Claim theorems -/

/-- C1: For every dispatched action, run_action treats a returnCode of 0 or 1
in the action result as success (no error for those values), and for every
returnCode of at least 2 it fails with an error whose message names the
action. -/
theorem c1_return_code_policy (env : RunEnv) (u action_name : String)
    (params : List (String × String)) (pm : String) (ps : Bool)
    (hu : env.leaderUnit = some u) :
    (env.actionResult.returnCode ≤ 1 →
      (run_action env action_name params pm ps).outcome = .ok ()) ∧
    (2 ≤ env.actionResult.returnCode →
      (run_action env action_name params pm ps).outcome =
        .error (.clickException ("Unable to run action: " ++ action_name)) ∧
      containsSubstr ("Unable to run action: " ++ action_name) action_name = true) := by
  constructor
  · intro hrc
    have hgt : ¬ (env.actionResult.returnCode > 1) := by omega
    simp only [run_action, hu]
    rw [if_neg hgt]
    cases ps <;> rfl
  · intro hrc
    have hgt : env.actionResult.returnCode > 1 := by omega
    refine ⟨?_, containsSubstr_append_self _ _⟩
    simp only [run_action, hu]
    rw [if_pos hgt]

theorem c1_return_code_policy_witness :
    (run_action ⟨some "tempest/0", ⟨1, "", ""⟩⟩ "validate" [] "msg" false).outcome =
      .ok () ∧
    (run_action ⟨some "tempest/0", ⟨2, "", ""⟩⟩ "validate" [] "msg" false).outcome =
      .error (.clickException ("Unable to run action: " ++ "validate")) ∧
    containsSubstr ("Unable to run action: " ++ "validate") "validate" = true :=
  ⟨(c1_return_code_policy ⟨some "tempest/0", ⟨1, "", ""⟩⟩ "tempest/0" "validate" []
      "msg" false rfl).1 (by decide),
   (c1_return_code_policy ⟨some "tempest/0", ⟨2, "", ""⟩⟩ "tempest/0" "validate" []
      "msg" false rfl).2 (by decide)⟩

/-- C2: For every schedule string that parses under 5-field cron grammar
anchored at 2004-03-05T00:00:00, validated_schedule computes the first two
firing instants after the reference time; it fails with the
faster-than-15-minutes message when their difference is at most 900 seconds
and succeeds returning the input otherwise; in particular the five-minute
star schedule is rejected and the thirty-minute star schedule accepted. -/
theorem c2_min_period_policy :
    MINIMAL_PERIOD = 900 ∧
    (∀ (s : String) (cron : CronExpr) (t1 t2 : Nat),
      parseCron s = .ok cron →
      getNext cron BASE_MINUTE = some t1 →
      getNext cron t1 = some t2 →
      validated_schedule s =
        if (t2 - t1) * 60 ≤ MINIMAL_PERIOD then
          .error (.clickException
            "Cannot schedule periodic check to run faster than every 15 minutes.")
        else .ok s) ∧
    validated_schedule "*/5 * * * *" =
      .error (.clickException
        "Cannot schedule periodic check to run faster than every 15 minutes.") ∧
    validated_schedule "*/30 * * * *" = .ok "*/30 * * * *" := by
  refine ⟨rfl, ?_, rfl, rfl⟩
  intro s cron t1 t2 hp h1 h2
  have hlen := parseCron_len s cron hp
  have hne : ¬ (s = "") := parseCron_ok_ne s cron hp
  have h6 : ¬ ((pysplit s).length = 6) := by omega
  unfold validated_schedule
  rw [if_neg hne, if_neg h6]
  simp only [hp, h1, h2]

/-- The parsed form of the thirty-minute star schedule, for the witness. -/
def cron30 : CronExpr :=
  { minute := [0, 30], hour := rangeList 0 23, dom := rangeList 1 31,
    month := rangeList 1 12, dow := (rangeList 0 7).map (fun v => v % 7),
    domStar := true, dowStar := true }

theorem c2_min_period_policy_witness :
    validated_schedule "*/30 * * * *" = Except.ok "*/30 * * * *" :=
  c2_min_period_policy.2.1 "*/30 * * * *" cron30 92190 92220 rfl rfl rfl

/-- C3: For every list of configure arguments containing a schedule argument
whose value schedule validation rejects, configure_validation fails and makes
no remote call at all: no leader lookup and no setApplicationConfig. -/
theorem c3_invalid_schedule_no_push (env : ConfigureEnv) (opts : List String) (v : String)
    (hmem : ("schedule=" ++ v) ∈ opts)
    (hbad : (validated_schedule v).isOk = false) :
    (configure_validation env opts).outcome.isOk = false ∧
    (configure_validation env opts).calls = [] := by
  have hne : opts ≠ [] := by
    rintro rfl
    cases hmem
  have key : ∃ e, configure_validation env opts =
      { outcome := Except.error e, calls := [], printed := [] } := by
    unfold configure_validation
    split
    · split
      · rename_i hempty
        exact absurd (List.isEmpty_iff.mp hempty) hne
      · split
        · exact ⟨_, rfl⟩
        · rename_i cfgArgs heq1
          split
          · exact ⟨_, rfl⟩
          · rename_i cfg heq2
            have hd : ("schedule", v) ∈ cfgArgs :=
              parseConfigGo_mem opts [] cfgArgs v heq1 hmem
            have hvca : (validated_config_args cfgArgs).isOk = false :=
              vcaGo_err cfgArgs v {} hd hbad
            rw [heq2] at hvca
            simp [Except.isOk, Except.toBool] at hvca
    · exact ⟨_, rfl⟩
  obtain ⟨e, he⟩ := key
  rw [he]
  exact ⟨rfl, rfl⟩

theorem c3_invalid_schedule_no_push_witness :
    ("schedule=" ++ "*/5 * * * *") ∈ ["schedule=*/5 * * * *"] ∧
    (configure_validation ⟨["observability"], some "tempest/0"⟩
        ["schedule=*/5 * * * *"]).outcome.isOk = false ∧
    (configure_validation ⟨["observability"], some "tempest/0"⟩
        ["schedule=*/5 * * * *"]).calls = [] :=
  ⟨by decide,
   c3_invalid_schedule_no_push ⟨["observability"], some "tempest/0"⟩
     ["schedule=*/5 * * * *"] "*/5 * * * *" (by decide) rfl⟩

/-- C4: For every action request, if leader resolution returns no unit,
run_action fails with an error carrying the application name after exactly
one leader lookup, and the remote action endpoint is never called. -/
theorem c4_leader_unavailable (env : RunEnv) (action_name : String)
    (params : List (String × String)) (pm : String) (ps : Bool)
    (h : env.leaderUnit = none) :
    run_action env action_name params pm ps =
      { outcome := .error (.clickException ("Unable to get " ++ "tempest" ++ " leader")),
        calls := [.getLeaderUnit "tempest" OPENSTACK_MODEL], printed := [] } ∧
    (run_action env action_name params pm ps).calls.all
      (fun c => !(isActionInvocation c)) = true := by
  constructor
  · simp only [run_action, h]
  · simp only [run_action, h]
    rfl

theorem c4_leader_unavailable_witness :
    run_action ⟨none, ⟨0, "", ""⟩⟩ "validate" [] "msg" true =
      { outcome := .error (.clickException ("Unable to get " ++ "tempest" ++ " leader")),
        calls := [.getLeaderUnit "tempest" OPENSTACK_MODEL], printed := [] } ∧
    (run_action ⟨none, ⟨0, "", ""⟩⟩ "validate" [] "msg" true).calls.all
      (fun c => !(isActionInvocation c)) = true :=
  c4_leader_unavailable ⟨none, ⟨0, "", ""⟩⟩ "validate" [] "msg" true rfl

/-- C5: With a validated schedule value and a resolvable leader, the source
pushes the configuration mapping but then raises UnboundLocalError at
console.print(message), instead of returning normally as the claim states:
the success path reads the local variable message that was only assigned in
the missing-leader branch. -/
theorem c5_push_then_unbound_local :
    configure_validation ⟨["observability"], some "tempest/0"⟩ ["schedule=*/30 * * * *"] =
      { outcome := .error (.unboundLocalError "message"),
        calls := [.getLeaderUnit "tempest" OPENSTACK_MODEL,
                  .setApplicationConfig OPENSTACK_MODEL "tempest"
                    [("schedule", "*/30 * * * *")]],
        printed := [] } := rfl

/-- C6 counterexample: a whitespace-only schedule string is not accepted as
disabled; validated_schedule rejects it with the five-columns parse error,
refuting the claim for blank input. -/
theorem c6_blank_counterexample :
    validated_schedule " " =
      .error (.clickException "Exactly 5 columns must be specified for iterator expression.") ∧
    validated_schedule " " ≠ .ok "" := by
  refine ⟨rfl, ?_⟩
  intro h
  rw [show validated_schedule " " =
      .error (.clickException "Exactly 5 columns must be specified for iterator expression.")
    from rfl] at h
  exact Except.noConfusion h

/-- C6 amended: only the genuinely empty schedule string is accepted as
disabled with normalized result empty; every nonempty whitespace-only string
is instead rejected with the five-columns parse error. -/
theorem c6_empty_only (s : String) (hne : ¬ (s = ""))
    (hws : ∀ c ∈ s.data, isPyWhitespace c = true) :
    validated_schedule "" = .ok "" ∧
    validated_schedule s =
      .error (.clickException "Exactly 5 columns must be specified for iterator expression.") := by
  refine ⟨rfl, ?_⟩
  have hsplit : pysplit s = [] := pysplitAux_ws s.data hws
  have hpc : parseCron s =
      .error "Exactly 5 or 6 columns has to be specified for iterator expression." := by
    unfold parseCron
    rw [hsplit]
  have h6 : ¬ ((pysplit s).length = 6) := by
    rw [hsplit]
    decide
  unfold validated_schedule
  rw [if_neg hne, if_neg h6]
  simp only [hpc]
  rfl

theorem c6_empty_only_witness :
    validated_schedule "" = .ok "" ∧
    validated_schedule " " =
      .error (.clickException "Exactly 5 columns must be specified for iterator expression.") :=
  c6_empty_only " " (by decide) (by decide)

/-- C7: Every input that tokenizes into exactly 6 whitespace-separated fields
is rejected with the no-seconds message, regardless of token content and
before any generic cron parsing. -/
theorem c7_six_fields_rejected (s : String) (h : (pysplit s).length = 6) :
    validated_schedule s =
      .error (.clickException
        "This cron does not support seconds in schedule (6 fields). Exactly 5 columns must be specified for iterator expression.") := by
  have hne : ¬ (s = "") := by
    rintro rfl
    exact absurd h (by decide)
  unfold validated_schedule
  rw [if_neg hne, if_pos h]

theorem c7_six_fields_rejected_witness :
    validated_schedule "x y z p q r" =
      .error (.clickException
        "This cron does not support seconds in schedule (6 fields). Exactly 5 columns must be specified for iterator expression.") :=
  c7_six_fields_rejected "x y z p q r" rfl

/-- C8: For every schedule string on which the cron parser raises a parse
error, validated_schedule fails; a wrong-field-count parser message is
normalized to the exactly-5-columns message (which begins with the text
Exactly 5 columns must be specified) and every other parser message is
passed through verbatim, as with the invalid weekday name example. -/
theorem c8_parse_error_messages :
    (∀ (s msg : String),
      ¬ (s = "") → ¬ ((pysplit s).length = 6) → parseCron s = .error msg →
      validated_schedule s =
        .error (.clickException
          (if containsSubstr msg "Exactly 5 or 6 columns" = true then
            "Exactly 5 columns must be specified for iterator expression."
          else msg))) ∧
    validated_schedule "*/30 * *" =
      .error (.clickException "Exactly 5 columns must be specified for iterator expression.") ∧
    validated_schedule "*/5 * * * xyz" =
      .error (.clickException "[*/5 * * * xyz] is not acceptable") ∧
    containsSubstr "Exactly 5 columns must be specified for iterator expression."
      "Exactly 5 columns must be specified" = true := by
  refine ⟨?_, rfl, rfl, rfl⟩
  intro s msg hne h6 hp
  unfold validated_schedule
  rw [if_neg hne, if_neg h6]
  simp only [hp]

theorem c8_parse_error_messages_witness :
    validated_schedule "*/30 * *" =
      .error (.clickException
        (if containsSubstr "Exactly 5 or 6 columns has to be specified for iterator expression."
            "Exactly 5 or 6 columns" = true then
          "Exactly 5 columns must be specified for iterator expression."
        else "Exactly 5 or 6 columns has to be specified for iterator expression.")) :=
  c8_parse_error_messages.1 "*/30 * *"
    "Exactly 5 or 6 columns has to be specified for iterator expression."
    (by decide) (by decide) rfl

/-- C9 counterexample: the source strips leading whitespace of stdout as
well, not only the trailing whitespace: with stdout a word surrounded by
spaces, the printed output drops the leading spaces, while trailing-only
trimming would keep them. -/
theorem c9_strip_counterexample :
    (run_action ⟨some "tempest/0", ⟨0, " ok ", "err"⟩⟩ "validate" [] "msg" true).printed =
      ["ok"] ∧
    pyrstrip " ok " = " ok" ∧
    ("ok" : String) ≠ " ok" := by
  refine ⟨rfl, rfl, ?_⟩
  decide

/-- C9 amended: for every successful captured action result, the surfaced
output is stdout with both leading and trailing whitespace removed, the
interior preserved; stderr is not surfaced. -/
theorem c9_strip_both_ends (env : RunEnv) (u action_name : String)
    (params : List (String × String)) (pm : String)
    (hu : env.leaderUnit = some u)
    (hrc : env.actionResult.returnCode ≤ 1) :
    (run_action env action_name params pm true).printed =
      [pystrip env.actionResult.stdout] ∧
    ∃ a b, env.actionResult.stdout.data =
        a ++ (pystrip env.actionResult.stdout).data ++ b ∧
      (∀ c ∈ a, isPyWhitespace c = true) ∧ (∀ c ∈ b, isPyWhitespace c = true) := by
  have hgt : ¬ (env.actionResult.returnCode > 1) := by omega
  refine ⟨?_, pystrip_decomp env.actionResult.stdout⟩
  simp only [run_action, hu]
  rw [if_neg hgt]
  rfl

theorem c9_strip_both_ends_witness :
    (run_action ⟨some "tempest/0", ⟨1, " a b ", "e"⟩⟩ "validate" [] "msg" true).printed =
      [pystrip " a b "] ∧
    ∃ a b, (" a b " : String).data = a ++ (pystrip " a b ").data ++ b ∧
      (∀ c ∈ a, isPyWhitespace c = true) ∧ (∀ c ∈ b, isPyWhitespace c = true) :=
  c9_strip_both_ends ⟨some "tempest/0", ⟨1, " a b ", "e"⟩⟩ "tempest/0" "validate" []
    "msg" rfl (by decide)

/-- C10: Every configure invocation first requires the observability plugin
to be enabled; otherwise it fails with the plugin-required message before
any argument parsing, schedule validation, or remote call, whatever the
argument list is. -/
theorem c10_requires_observability (env : ConfigureEnv) (opts : List String)
    (h : "observability" ∉ env.enabledPlugins) :
    configure_validation env opts =
      { outcome := .error (.clickException
          "\x27observability\x27 plugin is required for configuring validation plugin."),
        calls := [], printed := [] } := by
  simp [configure_validation, configure_preflight_check, h]

theorem c10_requires_observability_witness :
    configure_validation ⟨["telemetry"], some "tempest/0"⟩ ["schedule=*/30 * * * *"] =
      { outcome := .error (.clickException
          "\x27observability\x27 plugin is required for configuring validation plugin."),
        calls := [], printed := [] } :=
  c10_requires_observability ⟨["telemetry"], some "tempest/0"⟩ ["schedule=*/30 * * * *"]
    (by decide)
